import Mathlib

/- Shallow embedding of the ai_call_agent repository core:
   the Call Lifecycle Coordinator (app/core/call_manager.py),
   the Session Worker (app/workers/call_worker.py) and
   the Tool Invocation Engine (app/core/tool_executor.py).
   Database rows are embedded as Lean structures holding the columns the
   coordinator operations read or write; SQLAlchemy query/first/commit is
   embedded as pure list search and first-match update on an explicit DB
   state.  Timestamps are abstract Nat clocks; the ORM automatic
   updated_at bump is not modelled. -/

namespace AiCallAgent

/-- Row of the agents table (app/models/database.py, class Agent); only the
columns read by the coordinator operations are carried. -/
structure AgentRow where
  id : Nat
  is_active : Bool
deriving DecidableEq

/-- Row of the phone_numbers table (class PhoneNumber). -/
structure PhoneNumberRow where
  id : Nat
  phone_number : String
  agent_id : Nat
  is_active : Bool
deriving DecidableEq

/-- Row of the calls table (class Call).  The room identifier is the value
drawn from the uuid supply: the source renders it as the string call_ plus
uuid4().hex, an injective rendering, so the model keeps the underlying
fresh value itself. -/
structure CallRow where
  id : Nat
  call_sid : Option String
  room_name : Nat
  agent_id : Nat
  phone_number_id : Nat
  caller_number : Option String
  status : String
  duration : Option Int
  recording_url : Option String
  transcript : Option String
  call_metadata : List (String × String)
  created_at : Nat
deriving DecidableEq

/-- The persistent store plus the process state the coordinator touches:
autoincrement id counters, the uuid supply (modelled as a fresh counter),
and the list of room identifiers for which a detached Session Worker task
has been spawned via asyncio.create_task. -/
structure DB where
  agents : List AgentRow
  phone_numbers : List PhoneNumberRow
  calls : List CallRow
  next_phone_id : Nat
  next_call_id : Nat
  uuid_ctr : Nat
  clock : Nat
  workers : List Nat
deriving DecidableEq

/-- Query .filter(Agent.id == agent_id, Agent.is_active == True).first() -/
def findAgent (db : DB) (agent_id : Nat) : Option AgentRow :=
  db.agents.find? (fun a => a.id == agent_id && a.is_active)

/-- Query .filter(PhoneNumber.phone_number == phone_number).first() -/
def findPhone (db : DB) (phone_number : String) : Option PhoneNumberRow :=
  db.phone_numbers.find? (fun p => p.phone_number == phone_number)

/-- Query .filter(Call.id == call_id).first() -/
def findCallById (db : DB) (call_id : Nat) : Option CallRow :=
  db.calls.find? (fun c => c.id == call_id)

/-- Query .filter(Call.room_name == room_name).first() -/
def findCallByRoom (db : DB) (room_name : Nat) : Option CallRow :=
  db.calls.find? (fun c => c.room_name == room_name)

/-- Mutating the row object returned by .first() and committing: the first
list element satisfying the predicate is replaced by its image under f. -/
def updateFirst (p : CallRow → Bool) (f : CallRow → CallRow) : List CallRow → List CallRow
  | [] => []
  | c :: cs => if p c then f c :: cs else c :: updateFirst p f cs

/-- Result dictionary of CallManager.initiate_call: either
success True with call_id, room_name and status, or success False with an
error string. -/
inductive InitiateResult where
  | ok (call_id : Nat) (room_name : Nat) (status : String)
  | err (error : String)
deriving DecidableEq

/-- Result dictionary of CallManager.end_call. -/
inductive EndResult where
  | ok (message : String)
  | err (error : String)
deriving DecidableEq

/-- CallManager.initiate_call (app/core/call_manager.py lines 33-86):
validates the agent, gets-or-creates the phone record, draws a fresh room
identifier, persists the call row with status initiated, spawns the
detached worker task, and returns the acknowledgement; the ValueError for
a missing or inactive agent is caught by the surrounding except and
returned as a success False dictionary.  The metadata constructor argument
is recorded on the row model here; in the source it lands on a non-column
attribute shadowing the declarative metadata object, a detail with no
bearing on the claims. -/
def initiate_call (db : DB) (agent_id : Nat) (phone_number : String)
    (caller_number : Option String) (metadata : Option (List (String × String))) :
    InitiateResult × DB :=
  match findAgent db agent_id with
  | none =>
      (.err ("Agent with id " ++ toString agent_id ++ " not found or inactive"), db)
  | some _ =>
      let pr : PhoneNumberRow × DB :=
        match findPhone db phone_number with
        | some p => (p, db)
        | none =>
            let p : PhoneNumberRow :=
              { id := db.next_phone_id, phone_number := phone_number,
                agent_id := agent_id, is_active := true }
            (p, { db with phone_numbers := db.phone_numbers ++ [p],
                          next_phone_id := db.next_phone_id + 1 })
      let p := pr.1
      let db1 := pr.2
      let room_name := db1.uuid_ctr
      let call : CallRow :=
        { id := db1.next_call_id, call_sid := none, room_name := room_name,
          agent_id := agent_id, phone_number_id := p.id,
          caller_number := caller_number, status := "initiated",
          duration := none, recording_url := none, transcript := none,
          call_metadata := metadata.getD [], created_at := db1.clock }
      let db2 :=
        { db1 with calls := db1.calls ++ [call],
                   next_call_id := db1.next_call_id + 1,
                   uuid_ctr := db1.uuid_ctr + 1,
                   workers := db1.workers ++ [room_name] }
      (.ok call.id room_name "initiated", db2)

/-- CallManager.end_call (lines 151-172): looks the record up by id,
unconditionally sets its status to completed and commits; a missing record
raises ValueError which the surrounding except turns into a success False
dictionary. -/
def end_call (db : DB) (call_id : Nat) : EndResult × DB :=
  match findCallById db call_id with
  | none => (.err ("Call with id " ++ toString call_id ++ " not found"), db)
  | some _ =>
      let newCalls :=
        updateFirst (fun c => c.id == call_id)
          (fun c => { c with status := "completed" }) db.calls
      (.ok "Call ended successfully", { db with calls := newCalls })

/-- Field assignments of CallManager.update_call_status (lines 217-221)
on the found record: the status is assigned unconditionally, duration and
recording_url are assigned only when truthy in the Python sense (a
present nonzero integer, a present nonempty string). -/
def applyCallUpdate (status : String) (duration : Option Int)
    (recording_url : Option String) (c : CallRow) : CallRow :=
  let c1 := { c with status := status }
  let c2 :=
    match duration with
    | some d => if d ≠ 0 then { c1 with duration := some d } else c1
    | none => c1
  match recording_url with
  | some r => if r ≠ "" then { c2 with recording_url := some r } else c2
  | none => c2

/-- CallManager.update_call_status (lines 210-224): looks the record up
by room identifier; a missing record only logs and returns without side
effect; otherwise the field assignments are applied and committed. -/
def update_call_status (db : DB) (room_name : Nat) (status : String)
    (duration : Option Int) (recording_url : Option String) : DB :=
  match findCallByRoom db room_name with
  | none => db
  | some _ =>
      let newCalls :=
        updateFirst (fun c => c.room_name == room_name)
          (applyCallUpdate status duration recording_url) db.calls
      { db with calls := newCalls }

/- Session Worker (app/workers/call_worker.py entrypoint, wrapped by
CallManager._run_livekit_worker).  Each awaited collaborator step is
driven by an outcome oracle; the worker run is embedded as the sequence of
events it performs together with its Python-level result: normal return or
an exception escaping the coroutine. -/

/-- Observable steps of one Session Worker run, in execution order:
connecting to the room, creating the detached session.start task,
awaiting the SIP dial, awaiting the session-start task, awaiting the
participant join, requesting the scripted greeting, cancelling the
session-start task (never emitted by the source), and ctx.shutdown. -/
inductive WorkerEvent where
  | connect
  | sessionTaskCreated
  | dialAwait
  | sessionAwait
  | waitParticipant
  | greet
  | cancelSessionTask
  | shutdown
deriving DecidableEq

/-- Outcome of one awaited collaborator step: normal completion, a
livekit api.TwirpError, or any other raised exception. -/
inductive StepOutcome where
  | ok
  | twirpError (msg : String)
  | raised (msg : String)
deriving DecidableEq

/-- Oracle fixing the outcome of every awaited step of one worker run. -/
structure WorkerEnv where
  connect_outcome : StepOutcome
  agent_found : Bool
  dial_outcome : StepOutcome
  session_start_outcome : StepOutcome
  wait_participant_outcome : StepOutcome
  greet_outcome : StepOutcome
deriving DecidableEq

/-- Worker entrypoint (app/workers/call_worker.py lines 169-286): connect,
look the agent up, create the session.start task, then inside a single
try block await the dial, await the session task, await the participant
and request the greeting; both except clauses (api.TwirpError and
Exception) only log and call ctx.shutdown, so an exception raised inside
the try block never escapes, while an exception raised before the try
block (connect, metadata parsing, agent lookup) escapes the coroutine.
Returns the event trace and the coroutine result. -/
def entrypoint (agent_id : Nat) (env : WorkerEnv) :
    List WorkerEvent × Except String Unit :=
  match env.connect_outcome with
  | .twirpError m => ([.connect], .error m)
  | .raised m => ([.connect], .error m)
  | .ok =>
    match env.agent_found with
    | false =>
      ([.connect],
        .error ("Agent with id " ++ toString agent_id ++ " not found or inactive"))
    | true =>
      let ev0 := [WorkerEvent.connect, WorkerEvent.sessionTaskCreated]
      match env.dial_outcome with
      | .twirpError _ => (ev0 ++ [.dialAwait, .shutdown], .ok ())
      | .raised _ => (ev0 ++ [.dialAwait, .shutdown], .ok ())
      | .ok =>
        match env.session_start_outcome with
        | .ok =>
          match env.wait_participant_outcome with
          | .ok =>
            match env.greet_outcome with
            | .ok =>
                (ev0 ++ [.dialAwait, .sessionAwait, .waitParticipant, .greet], .ok ())
            | _ =>
                (ev0 ++ [.dialAwait, .sessionAwait, .waitParticipant, .greet, .shutdown],
                  .ok ())
          | _ => (ev0 ++ [.dialAwait, .sessionAwait, .waitParticipant, .shutdown], .ok ())
        | _ => (ev0 ++ [.dialAwait, .sessionAwait, .shutdown], .ok ())

/-- CallManager._run_livekit_worker (app/core/call_manager.py lines
115-149): runs the entrypoint; its except Exception clause catches
anything the coroutine raised and sets the status of the record matching
the room to failed (when such a record exists).  The wrapper itself
always returns normally, so nothing propagates out of the worker task. -/
def run_livekit_worker (db : DB) (room_name : Nat) (agent_id : Nat)
    (env : WorkerEnv) : List WorkerEvent × DB :=
  let r := entrypoint agent_id env
  match r.2 with
  | .ok _ => (r.1, db)
  | .error _ =>
      match findCallByRoom db room_name with
      | none => (r.1, db)
      | some _ =>
          let newCalls :=
            updateFirst (fun c => c.room_name == room_name)
              (fun c => { c with status := "failed" }) db.calls
          (r.1, { db with calls := newCalls })

/- Restricted arithmetic evaluator: the calculate built-in registered by
FunctionRegistry._register_default_functions
(app/core/tool_executor.py lines 203-235).  Python ast nodes reachable by
parsing an expression of the arithmetic fragment are embedded as an
inductive; numeric values are modelled as exact rationals (Python float
division is modelled as exact rational division). -/

/-- Python ast binary operator nodes; the constructors other than the six
whitelisted ones are collapsed into other with the node name. -/
inductive PyBinOp where
  | add
  | sub
  | mult
  | div
  | pow
  | bitXor
  | other (node : String)
deriving DecidableEq

/-- Python ast unary operator nodes. -/
inductive PyUnaryOp where
  | usub
  | uadd
deriving DecidableEq

/-- Python ast expression nodes produced by ast.parse on the arithmetic
fragment: numeric literals, binary and unary operations, identifiers and
call nodes. -/
inductive PyExpr where
  | num (n : Nat)
  | binOp (op : PyBinOp) (left right : PyExpr)
  | unaryOp (op : PyUnaryOp) (operand : PyExpr)
  | name (idn : String)
  | call (func : PyExpr) (args : List PyExpr)

/-- Two's-complement bitwise xor on unbounded integers, as Python computes
int xor int. -/
def intXor : Int → Int → Int
  | .ofNat m, .ofNat n => .ofNat (Nat.xor m n)
  | .ofNat m, .negSucc n => .negSucc (Nat.xor m n)
  | .negSucc m, .ofNat n => .negSucc (Nat.xor m n)
  | .negSucc m, .negSucc n => .ofNat (Nat.xor m n)

/-- operator.truediv: raises ZeroDivisionError on a zero divisor. -/
def pyDiv (a b : ℚ) : Except String ℚ :=
  if b = 0 then .error "division by zero" else .ok (a / b)

/-- operator.pow on the rational value model: an integer exponent applies
exact integer power (negative exponents invert, zero base with a negative
exponent raises, as Python does); a non-integer exponent is outside the
model and errors. -/
def pyPow (a b : ℚ) : Except String ℚ :=
  if b.den = 1 then
    if a = 0 ∧ b.num < 0 then
      .error "0.0 cannot be raised to a negative power"
    else .ok (a ^ b.num)
  else .error "non-integer exponent not modelled"

/-- operator.xor: defined on integers only; a fractional operand raises
TypeError, as Python float xor does. -/
def pyXor (a b : ℚ) : Except String ℚ :=
  if a.den = 1 ∧ b.den = 1 then
    .ok ((intXor a.num b.num : Int) : ℚ)
  else .error "unsupported operand type for xor"

/-- The allowed_operators dictionary restricted to ast binary operator
keys; a key outside the dictionary gives none, which eval_expr turns into
the KeyError the source raises on the subscript. -/
def binOpFunction : PyBinOp → Option (ℚ → ℚ → Except String ℚ)
  | .add => some (fun a b => .ok (a + b))
  | .sub => some (fun a b => .ok (a - b))
  | .mult => some (fun a b => .ok (a * b))
  | .div => some pyDiv
  | .pow => some pyPow
  | .bitXor => some pyXor
  | .other _ => none

/-- The allowed_operators dictionary restricted to ast unary operator
keys: only ast.USub is present. -/
def unaryOpFunction : PyUnaryOp → Option (ℚ → Except String ℚ)
  | .usub => some (fun a => .ok (-a))
  | .uadd => none

/-- Node name used by the TypeError message of the source. -/
def pyBinOpName : PyBinOp → String
  | .add => "Add"
  | .sub => "Sub"
  | .mult => "Mult"
  | .div => "Div"
  | .pow => "Pow"
  | .bitXor => "BitXor"
  | .other node => node

/-- eval_expr of the calculate built-in: numeric literals evaluate to
themselves; for operator nodes the allowed_operators subscript is
resolved before either operand is evaluated (a missing key raises
KeyError there, as the Python subscript does); every other node kind
raises the TypeError of the final branch, so identifiers and calls are
never evaluated. -/
def eval_expr : PyExpr → Except String ℚ
  | .num n => .ok (n : ℚ)
  | .binOp op l r =>
      match binOpFunction op with
      | none => .error ("KeyError: " ++ pyBinOpName op)
      | some f =>
          match eval_expr l with
          | .error e => .error e
          | .ok a =>
              match eval_expr r with
              | .error e => .error e
              | .ok b => f a b
  | .unaryOp op e =>
      match unaryOpFunction op with
      | none => .error "KeyError: UAdd"
      | some f =>
          match eval_expr e with
          | .error e2 => .error e2
          | .ok a => f a
  | .name _ => .error "Unsupported operation: Name"
  | .call _ _ => .error "Unsupported operation: Call"

/- Model of ast.parse(expression, mode eval) for the arithmetic fragment:
integer literals, identifiers, call expressions, parentheses, the binary
operators + - * / % // ** ^ and unary + -, with Python precedence
(xor below additive, additive below multiplicative, unary below power,
power right-associative with its right operand at unary level). ast.parse
is Python standard library, not repository code; this model covers
exactly the inputs the claims exercise. -/

/-- Tokens of the arithmetic fragment. -/
inductive Tok where
  | num (n : Nat)
  | ident (s : String)
  | plus
  | minus
  | star
  | slash
  | dslash
  | percent
  | dstar
  | caret
  | lparen
  | rparen
  | comma
deriving DecidableEq

/-- Character class of identifier continuation characters. -/
def isIdentChar (c : Char) : Bool :=
  c.isAlpha || c.isDigit || c == '_'

/-- Character class of identifier start characters. -/
def isIdentStart (c : Char) : Bool :=
  c.isAlpha || c == '_'

/-- Decimal value of a digit string. -/
def digitsToNat (l : List Char) : Nat :=
  l.foldl (fun a c => 10 * a + (c.toNat - 48)) 0

/-- Fueled tokenizer for the arithmetic fragment. -/
def tokenizeAux : Nat → List Char → Except String (List Tok)
  | 0, _ => .error "tokenizer fuel exhausted"
  | _, [] => .ok []
  | fuel + 1, c :: cs =>
    if c == ' ' then tokenizeAux fuel cs
    else if c.isDigit then do
      let ts ← tokenizeAux fuel (cs.dropWhile Char.isDigit)
      .ok (.num (digitsToNat (c :: cs.takeWhile Char.isDigit)) :: ts)
    else if isIdentStart c then do
      let ts ← tokenizeAux fuel (cs.dropWhile isIdentChar)
      .ok (.ident (String.mk (c :: cs.takeWhile isIdentChar)) :: ts)
    else if c == '+' then do
      let ts ← tokenizeAux fuel cs
      .ok (.plus :: ts)
    else if c == '-' then do
      let ts ← tokenizeAux fuel cs
      .ok (.minus :: ts)
    else if c == '*' then
      match cs with
      | d :: cs2 =>
        if d == '*' then do
          let ts ← tokenizeAux fuel cs2
          .ok (.dstar :: ts)
        else do
          let ts ← tokenizeAux fuel cs
          .ok (.star :: ts)
      | [] => .ok [.star]
    else if c == '/' then
      match cs with
      | d :: cs2 =>
        if d == '/' then do
          let ts ← tokenizeAux fuel cs2
          .ok (.dslash :: ts)
        else do
          let ts ← tokenizeAux fuel cs
          .ok (.slash :: ts)
      | [] => .ok [.slash]
    else if c == '%' then do
      let ts ← tokenizeAux fuel cs
      .ok (.percent :: ts)
    else if c == '^' then do
      let ts ← tokenizeAux fuel cs
      .ok (.caret :: ts)
    else if c == '(' then do
      let ts ← tokenizeAux fuel cs
      .ok (.lparen :: ts)
    else if c == ')' then do
      let ts ← tokenizeAux fuel cs
      .ok (.rparen :: ts)
    else if c == ',' then do
      let ts ← tokenizeAux fuel cs
      .ok (.comma :: ts)
    else .error "invalid character"

/-- Tokenize a whole input string. -/
def tokenize (s : String) : Except String (List Tok) :=
  tokenizeAux (s.length + 1) s.toList

mutual

/-- Full expression: the xor level (lowest precedence in the fragment). -/
def parseExpr : Nat → List Tok → Except String (PyExpr × List Tok)
  | 0, _ => .error "parser fuel exhausted"
  | fuel + 1, ts => do
      let (e, ts1) ← parseArith fuel ts
      parseXorRest fuel e ts1

/-- Left-associated chain of caret operators. -/
def parseXorRest : Nat → PyExpr → List Tok → Except String (PyExpr × List Tok)
  | 0, _, _ => .error "parser fuel exhausted"
  | fuel + 1, acc, ts =>
      match ts with
      | .caret :: ts1 => do
          let (e, ts2) ← parseArith fuel ts1
          parseXorRest fuel (.binOp .bitXor acc e) ts2
      | _ => .ok (acc, ts)

/-- Additive level. -/
def parseArith : Nat → List Tok → Except String (PyExpr × List Tok)
  | 0, _ => .error "parser fuel exhausted"
  | fuel + 1, ts => do
      let (e, ts1) ← parseTerm fuel ts
      parseArithRest fuel e ts1

/-- Left-associated chain of additive operators. -/
def parseArithRest : Nat → PyExpr → List Tok → Except String (PyExpr × List Tok)
  | 0, _, _ => .error "parser fuel exhausted"
  | fuel + 1, acc, ts =>
      match ts with
      | .plus :: ts1 => do
          let (e, ts2) ← parseTerm fuel ts1
          parseArithRest fuel (.binOp .add acc e) ts2
      | .minus :: ts1 => do
          let (e, ts2) ← parseTerm fuel ts1
          parseArithRest fuel (.binOp .sub acc e) ts2
      | _ => .ok (acc, ts)

/-- Multiplicative level. -/
def parseTerm : Nat → List Tok → Except String (PyExpr × List Tok)
  | 0, _ => .error "parser fuel exhausted"
  | fuel + 1, ts => do
      let (e, ts1) ← parseFactor fuel ts
      parseTermRest fuel e ts1

/-- Left-associated chain of multiplicative operators; % and // parse to
operator nodes outside the whitelist. -/
def parseTermRest : Nat → PyExpr → List Tok → Except String (PyExpr × List Tok)
  | 0, _, _ => .error "parser fuel exhausted"
  | fuel + 1, acc, ts =>
      match ts with
      | .star :: ts1 => do
          let (e, ts2) ← parseFactor fuel ts1
          parseTermRest fuel (.binOp .mult acc e) ts2
      | .slash :: ts1 => do
          let (e, ts2) ← parseFactor fuel ts1
          parseTermRest fuel (.binOp .div acc e) ts2
      | .dslash :: ts1 => do
          let (e, ts2) ← parseFactor fuel ts1
          parseTermRest fuel (.binOp (.other "FloorDiv") acc e) ts2
      | .percent :: ts1 => do
          let (e, ts2) ← parseFactor fuel ts1
          parseTermRest fuel (.binOp (.other "Mod") acc e) ts2
      | _ => .ok (acc, ts)

/-- Unary level. -/
def parseFactor : Nat → List Tok → Except String (PyExpr × List Tok)
  | 0, _ => .error "parser fuel exhausted"
  | fuel + 1, ts =>
      match ts with
      | .minus :: ts1 => do
          let (e, ts2) ← parseFactor fuel ts1
          .ok (.unaryOp .usub e, ts2)
      | .plus :: ts1 => do
          let (e, ts2) ← parseFactor fuel ts1
          .ok (.unaryOp .uadd e, ts2)
      | _ => parsePower fuel ts

/-- Power level: right-associative, right operand at unary level. -/
def parsePower : Nat → List Tok → Except String (PyExpr × List Tok)
  | 0, _ => .error "parser fuel exhausted"
  | fuel + 1, ts => do
      let (e, ts1) ← parseAtom fuel ts
      match ts1 with
      | .dstar :: ts2 => do
          let (e2, ts3) ← parseFactor fuel ts2
          .ok (.binOp .pow e e2, ts3)
      | _ => .ok (e, ts1)

/-- Atoms: numeric literals, identifiers with an optional call argument
list, and parenthesized expressions. -/
def parseAtom : Nat → List Tok → Except String (PyExpr × List Tok)
  | 0, _ => .error "parser fuel exhausted"
  | fuel + 1, ts =>
      match ts with
      | .num n :: ts1 => .ok (.num n, ts1)
      | .ident s :: .lparen :: .rparen :: ts1 => .ok (.call (.name s) [], ts1)
      | .ident s :: .lparen :: ts1 => do
          let (args, ts2) ← parseArgs fuel ts1
          .ok (.call (.name s) args, ts2)
      | .ident s :: ts1 => .ok (.name s, ts1)
      | .lparen :: ts1 => do
          let (e, ts2) ← parseExpr fuel ts1
          match ts2 with
          | .rparen :: ts3 => .ok (e, ts3)
          | _ => .error "invalid syntax"
      | _ => .error "invalid syntax"

/-- Comma-separated call arguments up to the closing parenthesis. -/
def parseArgs : Nat → List Tok → Except String (List PyExpr × List Tok)
  | 0, _ => .error "parser fuel exhausted"
  | fuel + 1, ts => do
      let (e, ts1) ← parseExpr fuel ts
      match ts1 with
      | .comma :: ts2 => do
          let (rest, ts3) ← parseArgs fuel ts2
          .ok (e :: rest, ts3)
      | .rparen :: ts2 => .ok ([e], ts2)
      | _ => .error "invalid syntax"

end

/-- Model of ast.parse(expression, mode eval) followed by taking the body
of the Expression node. -/
def pyParseEval (s : String) : Except String PyExpr := do
  let ts ← tokenize s
  let (e, rest) ← parseExpr (10 * ts.length + 10) ts
  if rest = [] then .ok e else .error "invalid syntax"

/-- The calculate built-in (tool_executor.py lines 203-235): parse then
evaluate inside one try block whose except re-raises every failure as a
ValueError prefixed with Invalid expression. -/
def calculate (expression : String) : Except String ℚ :=
  match pyParseEval expression with
  | .error e => .error ("Invalid expression: " ++ e)
  | .ok tree =>
      match eval_expr tree with
      | .ok v => .ok v
      | .error e => .error ("Invalid expression: " ++ e)

/- Tool Invocation Engine (app/core/tool_executor.py): ToolExecutor
dispatch over tool kinds api, function, webhook, and the
FunctionRegistry of in-process functions.  The pooled httpx client is
embedded as an oracle mapping each request to a response or a transport
fault; JSON decoding of a response body is abstracted to its raw text.
Python exceptions travelling between the private dispatch helpers and
execute_tool are embedded as the error side of Except. -/

/-- JSON-like values travelling through tool parameters and results. -/
inductive Value where
  | vstr (s : String)
  | vnum (q : ℚ)
  | vbool (b : Bool)
  | vnull
  | vobj (fields : List (String × Value))

/-- An HTTP response as the dispatch code reads it. -/
structure HttpResponse where
  status_code : Nat
  body : String
  content_type : String

/-- Outcome of one outbound HTTP request: a response, or a transport
fault raised as an exception by the client. -/
inductive HttpOutcome where
  | resp (r : HttpResponse)
  | transportFault (msg : String)

/-- The pooled outbound client, as an oracle from method, url and request
data to an outcome.  The source sends GET data as query params and POST
data as a json body; both are folded into the data argument. -/
structure HttpClient where
  send : String → String → List (String × Value) → HttpOutcome

/-- The configuration dictionary of a tool; Python dict .get on the keys
the dispatchers read is embedded as these optional fields. -/
structure ToolConfiguration where
  endpoint : Option String
  method : Option String
  headers : List (String × String)
  auth : Option String
  default_params : List (String × Value)
  function_name : Option String
  webhook_url : Option String
  default_payload : List (String × Value)

/-- The tool_config dictionary handed to execute_tool. -/
structure ToolConfig where
  type : Option String
  name : Option String
  configuration : ToolConfiguration

/-- The uniform result dictionary: success flag, data or error, optional
status code, timestamp. -/
structure ToolResult where
  success : Bool
  data : Option Value
  error : Option String
  status_code : Option Nat
  timestamp : Nat

/-- Python dict merge d1 then d2, values of d2 winning on key conflict. -/
def mergeParams (d1 d2 : List (String × Value)) : List (String × Value) :=
  d1.filter (fun kv => d2.all (fun kv2 => kv2.1 ≠ kv.1)) ++ d2

/-- Response body as dispatch data: json bodies are abstracted to their
raw text, so both content-type branches carry the body text. -/
def responseData (r : HttpResponse) : Value :=
  .vstr r.body

/-- Python str.upper, written structurally so concrete method strings
evaluate. -/
def pyUpper (s : String) : String :=
  String.mk (s.toList.map Char.toUpper)

/-- ToolExecutor._execute_api_tool (lines 37-83): requires an endpoint,
dispatches GET or POST through the client, turns a non-2xx response into
a structured failure carrying the status code (the except clause for
HTTPStatusError raised by raise_for_status), and lets every other
exception (missing endpoint, unsupported method, transport fault)
propagate to the caller. -/
def execute_api_tool (cfg : ToolConfiguration) (params : List (String × Value))
    (client : HttpClient) (clock : Nat) : Except String ToolResult :=
  match cfg.endpoint with
  | none => .error "API tool missing endpoint configuration"
  | some endpoint =>
      let method := cfg.method.getD "GET"
      let request_data := mergeParams cfg.default_params params
      if pyUpper method == "GET" || pyUpper method == "POST" then
        match client.send (pyUpper method) endpoint request_data with
        | .transportFault m => .error m
        | .resp r =>
            if 200 ≤ r.status_code ∧ r.status_code < 300 then
              .ok { success := true, data := some (responseData r),
                    error := none, status_code := some r.status_code,
                    timestamp := clock }
            else
              .ok { success := false, data := none,
                    error := some ("HTTP " ++ toString r.status_code ++ ": " ++ r.body),
                    status_code := some r.status_code, timestamp := clock }
      else .error ("Unsupported HTTP method: " ++ method)

/-- The callables a FunctionRegistry can hold: the three built-ins
registered by _register_default_functions, plus runtime-registered
custom functions. -/
inductive RegisteredFunction where
  | get_current_time
  | calculateFn
  | format_currency
  | custom (impl : List (String × Value) → Except String Value)

/-- Registry state: the name-to-callable dictionary. -/
structure FunctionRegistry where
  functions : List (String × RegisteredFunction)

/-- Python dict assignment: replace the value at an existing key in
place, append a fresh key. -/
def insertKey (l : List (String × RegisteredFunction)) (name : String)
    (f : RegisteredFunction) : List (String × RegisteredFunction) :=
  match l with
  | [] => [(name, f)]
  | kv :: rest =>
      if kv.1 == name then (name, f) :: rest
      else kv :: insertKey rest name f

/-- FunctionRegistry.register_function. -/
def FunctionRegistry.register_function (reg : FunctionRegistry) (name : String)
    (f : RegisteredFunction) : FunctionRegistry :=
  { functions := insertKey reg.functions name f }

/-- FunctionRegistry.get_function. -/
def FunctionRegistry.get_function (reg : FunctionRegistry) (name : String) :
    Option RegisteredFunction :=
  (reg.functions.find? (fun kv => kv.1 == name)).map (fun kv => kv.2)

/-- FunctionRegistry construction: __init__ starts from an empty
dictionary and _register_default_functions registers exactly
get_current_time, calculate and format_currency. -/
def FunctionRegistry.new : FunctionRegistry :=
  (((({ functions := [] } : FunctionRegistry).register_function
      "get_current_time" .get_current_time).register_function
      "calculate" .calculateFn).register_function
      "format_currency" .format_currency)

/-- Rendering of datetime.utcnow().isoformat() on the abstract clock. -/
def utcIsoformat (clock : Nat) : String :=
  "utc-" ++ toString clock

/-- Rendering of the f-string currency format; the comma-grouped
two-decimal rendering of the amount is abstracted. -/
def formatAmount (q : ℚ) : String :=
  toString q.num ++ "/" ++ toString q.den

/-- Dictionary parameter lookup, Python dict get. -/
def lookupParam (params : List (String × Value)) (key : String) : Option Value :=
  (params.find? (fun kv => kv.1 == key)).map (fun kv => kv.2)

/-- Calling a registered function with keyword arguments; a raised
exception is the error side.  get_current_time returns the clock
rendering; calculate evaluates its expression argument; format_currency
maps the currency to its symbol (falling back to the currency text) and
renders the amount. -/
def applyFunction (f : RegisteredFunction) (params : List (String × Value))
    (clock : Nat) : Except String Value :=
  match f with
  | .get_current_time => .ok (.vstr (utcIsoformat clock))
  | .calculateFn =>
      match lookupParam params "expression" with
      | some (.vstr s) =>
          match calculate s with
          | .ok v => .ok (.vnum v)
          | .error e => .error e
      | some _ => .error "Invalid expression: parse argument must be a string"
      | none => .error "calculate missing required argument: expression"
  | .format_currency =>
      match lookupParam params "amount" with
      | some (.vnum q) =>
          let currency :=
            match lookupParam params "currency" with
            | some (.vstr c) => c
            | _ => "USD"
          let symbol :=
            if currency == "USD" then "$"
            else if currency == "EUR" then "€"
            else if currency == "GBP" then "£"
            else if currency == "JPY" then "¥"
            else currency
          .ok (.vstr (symbol ++ formatAmount q))
      | _ => .error "format_currency missing required argument: amount"
  | .custom impl => impl params

/-- ToolExecutor._execute_function_tool (lines 85-121): requires a
function name (missing name raises, propagating to execute_tool),
resolves it against a freshly constructed FunctionRegistry, returns a
structured not-found failure for an unknown name, and wraps the function
call in its own try so a raising function becomes a structured failure. -/
def execute_function_tool (cfg : ToolConfiguration)
    (params : List (String × Value)) (clock : Nat) : Except String ToolResult :=
  match cfg.function_name with
  | none => .error "Function tool missing function name"
  | some function_name =>
      match FunctionRegistry.new.get_function function_name with
      | none =>
          .ok { success := false, data := none,
                error := some ("Function \x27" ++ function_name ++ "\x27 not found"),
                status_code := none, timestamp := clock }
      | some f =>
          match applyFunction f params clock with
          | .ok v =>
              .ok { success := true, data := some v, error := none,
                    status_code := none, timestamp := clock }
          | .error e =>
              .ok { success := false, data := none, error := some e,
                    status_code := none, timestamp := clock }

/-- ToolExecutor._execute_webhook_tool (lines 123-170): requires a
webhook_url, sends the envelope of timestamp and parameters merged with
the configured default payload (default payload winning on key
conflict), POST by default; same status handling as the api dispatcher. -/
def execute_webhook_tool (cfg : ToolConfiguration)
    (params : List (String × Value)) (client : HttpClient) (clock : Nat) :
    Except String ToolResult :=
  match cfg.webhook_url with
  | none => .error "Webhook tool missing webhook_url configuration"
  | some webhook_url =>
      let method := cfg.method.getD "POST"
      let payload :=
        mergeParams
          [("timestamp", .vstr (utcIsoformat clock)), ("parameters", .vobj params)]
          cfg.default_payload
      if pyUpper method == "POST" || pyUpper method == "GET" then
        match client.send (pyUpper method) webhook_url payload with
        | .transportFault m => .error m
        | .resp r =>
            if 200 ≤ r.status_code ∧ r.status_code < 300 then
              .ok { success := true, data := some (responseData r),
                    error := none, status_code := some r.status_code,
                    timestamp := clock }
            else
              .ok { success := false, data := none,
                    error := some ("HTTP " ++ toString r.status_code ++ ": " ++ r.body),
                    status_code := some r.status_code, timestamp := clock }
      else .error ("Unsupported HTTP method for webhook: " ++ method)

/-- ToolExecutor.execute_tool (lines 15-35): dispatches on the type key;
an unknown or missing type raises ValueError inside the try; the
surrounding except Exception turns every exception from any dispatch
path into the uniform structured failure, so the caller always receives
a result dictionary and never an exception. -/
def execute_tool (tool : ToolConfig) (params : List (String × Value))
    (client : HttpClient) (clock : Nat) : ToolResult :=
  let dispatched : Except String ToolResult :=
    match tool.type with
    | some t =>
        if t == "api" then execute_api_tool tool.configuration params client clock
        else if t == "function" then
          execute_function_tool tool.configuration params clock
        else if t == "webhook" then
          execute_webhook_tool tool.configuration params client clock
        else .error ("Unsupported tool type: " ++ t)
    | none => .error "Unsupported tool type: None"
  match dispatched with
  | .ok r => r
  | .error e =>
      { success := false, data := none, error := some e,
        status_code := none, timestamp := clock }

/- Derived predicates and concrete instances used by the verification
statements below. -/

/-- The whitelisted fragment of the evaluator: numeric literals under
operator nodes whose allowed_operators subscript resolves, i.e. exactly
add, sub, mult, div, pow, bitxor and unary negate. -/
def allowedTree : PyExpr → Bool
  | .num _ => true
  | .binOp op l r => (binOpFunction op).isSome && allowedTree l && allowedTree r
  | .unaryOp op e => (unaryOpFunction op).isSome && allowedTree e
  | .name _ => false
  | .call _ _ => false

/-- Shape of the uniform dispatch envelope: a successful result carries
data, a failed result carries an error. -/
def resultWellFormed (r : ToolResult) : Prop :=
  (r.success = true → r.data.isSome = true) ∧
  (r.success = false → r.error.isSome = true)

/-- A call row constructor with the fields the concrete instances vary. -/
def mkCallRow (id room : Nat) (status : String) : CallRow :=
  { id := id, call_sid := none, room_name := room, agent_id := 7,
    phone_number_id := 1, caller_number := none, status := status,
    duration := none, recording_url := none, transcript := none,
    call_metadata := [("k", "v")], created_at := 0 }

/-- A store whose only call record is terminal with status completed. -/
def dbCompletedCall : DB :=
  { agents := [], phone_numbers := [], calls := [mkCallRow 1 0 "completed"],
    next_phone_id := 2, next_call_id := 2, uuid_ctr := 1, clock := 0,
    workers := [] }

/-- A store whose only call record is terminal with status failed. -/
def dbFailedCall : DB :=
  { agents := [], phone_numbers := [], calls := [mkCallRow 3 4 "failed"],
    next_phone_id := 2, next_call_id := 4, uuid_ctr := 5, clock := 0,
    workers := [] }

/-- A store whose only call record is still initiated, in room 5. -/
def dbInitiatedCall : DB :=
  { agents := [], phone_numbers := [], calls := [mkCallRow 9 5 "initiated"],
    next_phone_id := 2, next_call_id := 10, uuid_ctr := 6, clock := 0,
    workers := [] }

/-- A store with one active agent 7 and nothing else. -/
def dbActiveAgent : DB :=
  { agents := [{ id := 7, is_active := true }], phone_numbers := [],
    calls := [], next_phone_id := 1, next_call_id := 1, uuid_ctr := 0,
    clock := 0, workers := [] }

/-- A store with agent 7 present but disabled. -/
def dbInactiveAgent : DB :=
  { agents := [{ id := 7, is_active := false }], phone_numbers := [],
    calls := [], next_phone_id := 1, next_call_id := 1, uuid_ctr := 0,
    clock := 0, workers := [] }

/-- A store with no agent at all. -/
def dbNoAgent : DB :=
  { agents := [], phone_numbers := [], calls := [], next_phone_id := 1,
    next_call_id := 1, uuid_ctr := 0, clock := 0, workers := [] }

/-- A worker run in which everything succeeds except the SIP dial, which
raises a TwirpError. -/
def envDialFails : WorkerEnv :=
  { connect_outcome := .ok, agent_found := true,
    dial_outcome := .twirpError "SIP status 486 busy",
    session_start_outcome := .ok, wait_participant_outcome := .ok,
    greet_outcome := .ok }

/-- A worker run in which connecting to the room raises. -/
def envConnectRaises : WorkerEnv :=
  { connect_outcome := .raised "room connect refused", agent_found := true,
    dial_outcome := .ok, session_start_outcome := .ok,
    wait_participant_outcome := .ok, greet_outcome := .ok }

/-- A worker run in which the dial raises a non-Twirp exception. -/
def envDialRaises : WorkerEnv :=
  { connect_outcome := .ok, agent_found := true,
    dial_outcome := .raised "trunk unreachable",
    session_start_outcome := .ok, wait_participant_outcome := .ok,
    greet_outcome := .ok }

/-- A worker run in which the dial succeeds but the session.start task
raises. -/
def envSessionFails : WorkerEnv :=
  { connect_outcome := .ok, agent_found := true, dial_outcome := .ok,
    session_start_outcome := .raised "realtime model rejected",
    wait_participant_outcome := .ok, greet_outcome := .ok }

/-- A tool configuration dictionary with no keys set. -/
def emptyCfg : ToolConfiguration :=
  { endpoint := none, method := none, headers := [], auth := none,
    default_params := [], function_name := none, webhook_url := none,
    default_payload := [] }

/-- A tool of an unsupported kind. -/
def toolShell : ToolConfig :=
  { type := some "shell", name := some "sh", configuration := emptyCfg }

/-- A client whose every request raises a transport fault. -/
def nullClient : HttpClient :=
  { send := fun _ _ _ => .transportFault "connection refused" }

/-- A function-tool configuration naming an unregistered function. -/
def cfgUnknownFn : ToolConfiguration :=
  { emptyCfg with function_name := some "does_not_exist" }

/- Helper lemmas about first-match search and update. -/

/-- Updating the first match moves find? to the updated row, provided the
update preserves the predicate. -/
theorem find?_updateFirst (p : CallRow → Bool) (f : CallRow → CallRow)
    (hf : ∀ x, p x = true → p (f x) = true) :
    ∀ (l : List CallRow) (c : CallRow), l.find? p = some c →
      (updateFirst p f l).find? p = some (f c) := by
  intro l
  induction l with
  | nil => intro c h; simp [List.find?] at h
  | cons a l ih =>
      intro c h
      by_cases ha : p a = true
      · rw [List.find?_cons_of_pos _ ha] at h
        injection h with h; subst h
        rw [updateFirst, if_pos ha]
        exact List.find?_cons_of_pos _ (hf a ha)
      · have ha' : p a = false := by
          cases hpa : p a
          · rfl
          · exact absurd hpa ha
        rw [List.find?_cons_of_neg _ (by simp [ha'])] at h
        rw [updateFirst, if_neg (by simp [ha'])]
        rw [List.find?_cons_of_neg _ (by simp [ha'])]
        exact ih c h

/-- Updating the first match is the identity when the update fixes the
matched row. -/
theorem updateFirst_of_fix (p : CallRow → Bool) (f : CallRow → CallRow) :
    ∀ (l : List CallRow) (c : CallRow), l.find? p = some c → f c = c →
      updateFirst p f l = l := by
  intro l
  induction l with
  | nil => intro c h; simp [List.find?] at h
  | cons a l ih =>
      intro c h hfix
      by_cases ha : p a = true
      · rw [List.find?_cons_of_pos _ ha] at h
        injection h with h; subst h
        rw [updateFirst, if_pos ha, hfix]
      · have ha' : p a = false := by
          cases hpa : p a
          · rfl
          · exact absurd hpa ha
        rw [List.find?_cons_of_neg _ (by simp [ha'])] at h
        rw [updateFirst, if_neg (by simp [ha'])]
        rw [ih c h hfix]

/-- The update applied by update_call_status, written as one record
update: status unconditionally, duration and recording_url only when the
argument is truthy. -/
theorem applyCallUpdate_eq (st : String) (d : Option Int) (r : Option String)
    (c : CallRow) :
    applyCallUpdate st d r c =
      { c with status := st,
               duration :=
                 (match d with
                  | some v => if v ≠ 0 then some v else c.duration
                  | none => c.duration),
               recording_url :=
                 (match r with
                  | some s => if s ≠ "" then some s else c.recording_url
                  | none => c.recording_url) } := by
  cases d <;> cases r <;> simp only [applyCallUpdate] <;> split_ifs <;> rfl

/- Claim theorems. -/

/-- Claim C1, counterexample: the claim states that a status callback
attempting to move a terminal record is dropped; on a store whose only
record is already completed, update_call_status with status connecting
changes the stored status to connecting, so the callback is applied, not
dropped. -/
theorem C1_counterexample :
    (findCallByRoom dbCompletedCall 0).map CallRow.status = some "completed" ∧
    (findCallByRoom (update_call_status dbCompletedCall 0 "connecting" none none) 0).map
      CallRow.status = some "connecting" :=
  ⟨rfl, rfl⟩

/-- Claim C1, amended: the coordinator has no state-machine guard at all.
update_call_status overwrites the status of the first record matching the
room with the supplied value whatever the current status, including the
terminal statuses, and end_call overwrites the status of any found record
with completed and reports success. -/
theorem C1_no_terminal_guard :
    (∀ db room st d r c, findCallByRoom db room = some c →
      (findCallByRoom (update_call_status db room st d r) room).map CallRow.status =
        some st) ∧
    (∀ db cid c, findCallById db cid = some c →
      (end_call db cid).1 = .ok "Call ended successfully" ∧
      (findCallById (end_call db cid).2 cid).map CallRow.status = some "completed") := by
  constructor
  · intro db room st d r c h
    have hf : ∀ x : CallRow, (x.room_name == room) = true →
        ((applyCallUpdate st d r x).room_name == room) = true := by
      intro x hx
      rw [applyCallUpdate_eq]
      exact hx
    have h2 := find?_updateFirst (fun c => c.room_name == room)
      (applyCallUpdate st d r) hf db.calls c h
    simp only [update_call_status, findCallByRoom] at h ⊢
    rw [h]
    simp only [h2, Option.map_some]
    rw [applyCallUpdate_eq]
    rfl
  · intro db cid c h
    have hf : ∀ x : CallRow, (x.id == cid) = true →
        (({ x with status := "completed" } : CallRow).id == cid) = true := by
      intro x hx; exact hx
    have h2 := find?_updateFirst (fun c => c.id == cid)
      (fun c => { c with status := "completed" }) hf db.calls c h
    simp only [end_call, findCallById] at h ⊢
    rw [h]
    exact ⟨rfl, by rw [h2]; rfl⟩

/-- Supports claim C1: the amended statement applied on concrete stores,
moving a failed record to connected and an initiated record to
completed. -/
theorem C1_witness :
    (findCallByRoom (update_call_status dbFailedCall 4 "connected" none none) 4).map
      CallRow.status = some "connected" ∧
    (findCallById (end_call dbInitiatedCall 9).2 9).map CallRow.status =
      some "completed" :=
  ⟨C1_no_terminal_guard.1 dbFailedCall 4 "connected" none none
      (mkCallRow 3 4 "failed") rfl,
    (C1_no_terminal_guard.2 dbInitiatedCall 9 (mkCallRow 9 5 "initiated") rfl).2⟩

/-- Claim C4, counterexample: the claim states that ending a call whose
status is already terminal mutates no field beyond what already existed;
on a store whose only record is terminal with status failed, end_call
succeeds and overwrites the status with completed. -/
theorem C4_counterexample :
    (findCallById dbFailedCall 3).map CallRow.status = some "failed" ∧
    (end_call dbFailedCall 3).1 = .ok "Call ended successfully" ∧
    (findCallById (end_call dbFailedCall 3).2 3).map CallRow.status =
      some "completed" :=
  ⟨rfl, rfl, rfl⟩

/-- Claim C4, amended: end_call on an already-completed record succeeds
and leaves the store entirely unchanged; on any other found record,
including a failed one, it succeeds and overwrites exactly the status
field with completed. -/
theorem C4_end_call_idempotent :
    (∀ db cid c, findCallById db cid = some c → c.status = "completed" →
      (end_call db cid).1 = .ok "Call ended successfully" ∧
      (end_call db cid).2 = db) ∧
    (∀ db cid c, findCallById db cid = some c →
      (end_call db cid).1 = .ok "Call ended successfully" ∧
      findCallById (end_call db cid).2 cid =
        some { c with status := "completed" }) := by
  constructor
  · intro db cid c h hst
    have hfix : ({ c with status := "completed" } : CallRow) = c := by
      cases c
      simp only at hst
      simp [hst]
    have h2 := updateFirst_of_fix (fun c => c.id == cid)
      (fun c => { c with status := "completed" }) db.calls c h hfix
    simp only [end_call, findCallById] at h ⊢
    rw [h]
    exact ⟨rfl, by rw [h2]⟩
  · intro db cid c h
    have hf : ∀ x : CallRow, (x.id == cid) = true →
        (({ x with status := "completed" } : CallRow).id == cid) = true := by
      intro x hx; exact hx
    have h2 := find?_updateFirst (fun c => c.id == cid)
      (fun c => { c with status := "completed" }) hf db.calls c h
    simp only [end_call, findCallById] at h ⊢
    rw [h]
    exact ⟨rfl, h2⟩

/-- Supports claim C4: the amended statement applied on concrete stores:
ending the already-completed record changes nothing, ending the failed
record rewrites its status. -/
theorem C4_witness :
    (end_call dbCompletedCall 1).2 = dbCompletedCall ∧
    findCallById (end_call dbFailedCall 3).2 3 =
      some { mkCallRow 3 4 "failed" with status := "completed" } :=
  ⟨(C4_end_call_idempotent.1 dbCompletedCall 1 (mkCallRow 1 0 "completed")
      rfl rfl).2,
    (C4_end_call_idempotent.2 dbFailedCall 3 (mkCallRow 3 4 "failed") rfl).2⟩

/-- Claim C10, confirmed: a status callback on a found record applies the
status unconditionally, applies duration and recording_url only when the
supplied value is truthy (a callback carrying duration 0 or an empty
recording reference leaves the stored fields unchanged), and modifies no
other field of the record. -/
theorem C10_truthy_update :
    ∀ db room st d r c, findCallByRoom db room = some c →
      findCallByRoom (update_call_status db room st d r) room =
        some (applyCallUpdate st d r c) ∧
      applyCallUpdate st d r c =
        { c with status := st,
                 duration :=
                   (match d with
                    | some v => if v ≠ 0 then some v else c.duration
                    | none => c.duration),
                 recording_url :=
                   (match r with
                    | some s => if s ≠ "" then some s else c.recording_url
                    | none => c.recording_url) } ∧
      (d = some 0 → (applyCallUpdate st d r c).duration = c.duration) ∧
      (r = some "" → (applyCallUpdate st d r c).recording_url = c.recording_url) := by
  intro db room st d r c h
  have hf : ∀ x : CallRow, (x.room_name == room) = true →
      ((applyCallUpdate st d r x).room_name == room) = true := by
    intro x hx
    rw [applyCallUpdate_eq]
    exact hx
  have h2 := find?_updateFirst (fun c => c.room_name == room)
    (applyCallUpdate st d r) hf db.calls c h
  refine ⟨?_, applyCallUpdate_eq st d r c, ?_, ?_⟩
  · simp only [update_call_status, findCallByRoom] at h ⊢
    rw [h]
    exact h2
  · intro hd; subst hd
    rw [applyCallUpdate_eq]
    simp
  · intro hr; subst hr
    rw [applyCallUpdate_eq]
    cases d <;> simp

/-- Supports claim C10: the statement applied on a concrete store with a
callback carrying duration 0 and an empty recording reference: both
stored fields survive unchanged and only the status moves. -/
theorem C10_witness :
    findCallByRoom (update_call_status dbInitiatedCall 5 "connected" (some 0) (some "")) 5 =
      some (applyCallUpdate "connected" (some 0) (some "") (mkCallRow 9 5 "initiated")) ∧
    (applyCallUpdate "connected" (some 0) (some "") (mkCallRow 9 5 "initiated")).duration =
      (mkCallRow 9 5 "initiated").duration ∧
    (applyCallUpdate "connected" (some 0) (some "") (mkCallRow 9 5 "initiated")).recording_url =
      (mkCallRow 9 5 "initiated").recording_url :=
  ⟨(C10_truthy_update dbInitiatedCall 5 "connected" (some 0) (some "")
      (mkCallRow 9 5 "initiated") rfl).1,
    (C10_truthy_update dbInitiatedCall 5 "connected" (some 0) (some "")
      (mkCallRow 9 5 "initiated") rfl).2.2.1 rfl,
    (C10_truthy_update dbInitiatedCall 5 "connected" (some 0) (some "")
      (mkCallRow 9 5 "initiated") rfl).2.2.2 rfl⟩

/-- Claim C8, counterexample: the claim distinguishes a NotFound failure
for an absent agent from an Inactive failure for a disabled agent; the
code raises the same combined error in both situations: initiating
against disabled agent 7 yields the not-found-or-inactive message,
identical to the result of initiating when agent 7 does not exist. -/
theorem C8_counterexample :
    (initiate_call dbInactiveAgent 7 "+15551230000" none none).1 =
      .err "Agent with id 7 not found or inactive" ∧
    (initiate_call dbInactiveAgent 7 "+15551230000" none none).1 =
      (initiate_call dbNoAgent 7 "+15551230000" none none).1 :=
  ⟨rfl, rfl⟩

/-- Claim C8, amended: when the agent is absent or inactive (the single
active-agent query finds nothing), initiate fails synchronously with the
one combined error, launches no worker and creates no phone or call
record: the whole store, worker list included, is returned unchanged. -/
theorem C8_agent_gate :
    ∀ db agent_id pn caller md, findAgent db agent_id = none →
      initiate_call db agent_id pn caller md =
        (.err ("Agent with id " ++ toString agent_id ++ " not found or inactive"),
          db) := by
  intro db agent_id pn caller md h
  simp only [initiate_call, h]

/-- Supports claim C8: the amended statement applied on the concrete
store holding only the disabled agent 7. -/
theorem C8_witness :
    initiate_call dbInactiveAgent 7 "+15551230000" none none =
      (.err ("Agent with id " ++ toString 7 ++ " not found or inactive"),
        dbInactiveAgent) :=
  C8_agent_gate dbInactiveAgent 7 "+15551230000" none none rfl

/-- Claim C5, confirmed: with the agent active, at most one phone record
for the destination (the unique constraint) and the freshness invariant
on the uuid supply, a successful initiate returns the acknowledgement
with status initiated, a room identifier distinct from every previously
issued one, appends exactly one call record with status initiated,
leaves exactly one phone record for the destination (reused when
present, created exactly once when absent), launches one worker, and
preserves the freshness invariant. -/
theorem C5_initiate_success :
    ∀ db agent_id pn caller md a, findAgent db agent_id = some a →
      (db.phone_numbers.filter (fun p => p.phone_number == pn)).length ≤ 1 →
      (∀ c ∈ db.calls, c.room_name < db.uuid_ctr) →
      (initiate_call db agent_id pn caller md).1 =
        .ok db.next_call_id db.uuid_ctr "initiated" ∧
      (∀ c ∈ db.calls, c.room_name ≠ db.uuid_ctr) ∧
      (∃ call, (initiate_call db agent_id pn caller md).2.calls =
          db.calls ++ [call] ∧
        call.status = "initiated" ∧ call.room_name = db.uuid_ctr) ∧
      ((initiate_call db agent_id pn caller md).2.phone_numbers.filter
        (fun p => p.phone_number == pn)).length = 1 ∧
      (initiate_call db agent_id pn caller md).2.workers =
        db.workers ++ [db.uuid_ctr] ∧
      (∀ c ∈ (initiate_call db agent_id pn caller md).2.calls,
        c.room_name < (initiate_call db agent_id pn caller md).2.uuid_ctr) := by
  intro db agent_id pn caller md a hA hU hF
  have hDistinct : ∀ c ∈ db.calls, c.room_name ≠ db.uuid_ctr :=
    fun c hc => Nat.ne_of_lt (hF c hc)
  cases hp : findPhone db pn with
  | some p =>
      have hp2 : db.phone_numbers.find? (fun p => p.phone_number == pn) = some p := hp
      have hmem : p ∈ db.phone_numbers := List.mem_of_find?_eq_some hp2
      have hpred : (p.phone_number == pn) = true :=
        @List.find?_some _ (fun q => q.phone_number == pn) p db.phone_numbers hp2
      have hone :
          (db.phone_numbers.filter (fun p => p.phone_number == pn)).length = 1 := by
        have hin : p ∈ db.phone_numbers.filter (fun p => p.phone_number == pn) :=
          List.mem_filter.mpr ⟨hmem, hpred⟩
        have hpos :
            0 < (db.phone_numbers.filter (fun p => p.phone_number == pn)).length :=
          List.length_pos.mpr (List.ne_nil_of_mem hin)
        omega
      refine ⟨?_, hDistinct, ?_, ?_, ?_, ?_⟩
      · simp only [initiate_call, hA, findPhone] at hp ⊢
        rw [hp]
      · simp only [initiate_call, hA, findPhone] at hp ⊢
        rw [hp]
        exact ⟨_, rfl, rfl, rfl⟩
      · simp only [initiate_call, hA, findPhone] at hp ⊢
        rw [hp]
        exact hone
      · simp only [initiate_call, hA, findPhone] at hp ⊢
        rw [hp]
      · simp only [initiate_call, hA, findPhone] at hp ⊢
        rw [hp]
        intro c hc
        rcases List.mem_append.mp hc with hc | hc
        · exact Nat.lt_succ_of_lt (hF c hc)
        · rcases List.mem_singleton.mp hc with rfl
          exact Nat.lt_succ_self _
  | none =>
      have hnil : db.phone_numbers.filter (fun p => p.phone_number == pn) = [] := by
        apply List.filter_eq_nil_iff.mpr
        intro x hx
        exact List.find?_eq_none.mp hp x hx
      refine ⟨?_, hDistinct, ?_, ?_, ?_, ?_⟩
      · simp only [initiate_call, hA, findPhone] at hp ⊢
        rw [hp]
      · simp only [initiate_call, hA, findPhone] at hp ⊢
        rw [hp]
        exact ⟨_, rfl, rfl, rfl⟩
      · simp only [initiate_call, hA, findPhone] at hp ⊢
        rw [hp]
        simp only [List.filter_append, hnil, List.nil_append]
        simp
      · simp only [initiate_call, hA, findPhone] at hp ⊢
        rw [hp]
      · simp only [initiate_call, hA, findPhone] at hp ⊢
        rw [hp]
        intro c hc
        rcases List.mem_append.mp hc with hc | hc
        · exact Nat.lt_succ_of_lt (hF c hc)
        · rcases List.mem_singleton.mp hc with rfl
          exact Nat.lt_succ_self _

/-- Supports claim C5: the statement applied on the concrete store
holding only active agent 7 and no phone record: the call is
acknowledged as initiated and exactly one phone record for the
destination exists afterwards. -/
theorem C5_witness :
    (initiate_call dbActiveAgent 7 "+15551230000" none none).1 =
      .ok 1 0 "initiated" ∧
    ((initiate_call dbActiveAgent 7 "+15551230000" none none).2.phone_numbers.filter
      (fun p => p.phone_number == "+15551230000")).length = 1 :=
  ⟨(C5_initiate_success dbActiveAgent 7 "+15551230000" none none
      { id := 7, is_active := true } rfl (by decide) (by simp [dbActiveAgent])).1,
    (C5_initiate_success dbActiveAgent 7 "+15551230000" none none
      { id := 7, is_active := true } rfl (by decide) (by simp [dbActiveAgent])).2.2.2.1⟩

/-- Claim C6, counterexample: the claim states that any uncaught error in
dial handling is reported as a Failed transition with the error captured
in the call metadata; when the SIP dial raises a TwirpError, the
entrypoint catches it and only shuts down, the coroutine returns
normally, and the store is entirely unchanged: the record stays
initiated and nothing is written to its metadata. -/
theorem C6_counterexample :
    (entrypoint 7 envDialFails).2 = .ok () ∧
    (run_livekit_worker dbInitiatedCall 5 7 envDialFails).2 = dbInitiatedCall ∧
    (findCallByRoom (run_livekit_worker dbInitiatedCall 5 7 envDialFails).2 5).map
      CallRow.status = some "initiated" :=
  ⟨rfl, rfl, rfl⟩

/-- Claim C6, amended: the worker never propagates an exception outside
its task; an error raised before the entrypoint try block escapes the
coroutine and is recorded by the task wrapper as status failed, without
capturing the error anywhere in the record (metadata is never touched);
an error raised inside the try block (dial, session start, participant
wait, greeting) is swallowed by the entrypoint shutdown handlers and
leaves the store unchanged. -/
theorem C6_worker_failure_containment :
    ∀ db room aid env,
      ((entrypoint aid env).2 = .ok () →
        (run_livekit_worker db room aid env).2 = db) ∧
      (∀ e c, (entrypoint aid env).2 = .error e →
        findCallByRoom db room = some c →
        (findCallByRoom (run_livekit_worker db room aid env).2 room).map
          CallRow.status = some "failed") ∧
      (∀ c c2, findCallByRoom db room = some c →
        findCallByRoom (run_livekit_worker db room aid env).2 room = some c2 →
        c2.call_metadata = c.call_metadata) := by
  intro db room aid env
  have hf : ∀ x : CallRow, (x.room_name == room) = true →
      (({ x with status := "failed" } : CallRow).room_name == room) = true :=
    fun x hx => hx
  refine ⟨?_, ?_, ?_⟩
  · intro hok
    simp only [run_livekit_worker, hok]
  · intro e c hErr hC
    have h2 := find?_updateFirst (fun c => c.room_name == room)
      (fun c => { c with status := "failed" }) hf db.calls c hC
    simp only [run_livekit_worker, hErr, findCallByRoom] at hC ⊢
    rw [hC, h2]
    rfl
  · intro c c2 hC hC2
    cases hE : (entrypoint aid env).2 with
    | ok u =>
        have hdb : (run_livekit_worker db room aid env).2 = db := by
          simp only [run_livekit_worker, hE]
        rw [hdb, hC] at hC2
        injection hC2 with hc2
        rw [← hc2]
    | error e =>
        have h2 := find?_updateFirst (fun c => c.room_name == room)
          (fun c => { c with status := "failed" }) hf db.calls c hC
        have hfind :
            findCallByRoom (run_livekit_worker db room aid env).2 room =
              some { c with status := "failed" } := by
          simp only [run_livekit_worker, hE, findCallByRoom] at hC ⊢
          rw [hC]
          exact h2
        rw [hfind] at hC2
        injection hC2 with hc2
        rw [← hc2]

/-- Supports claim C6: the amended statement applied on the concrete run
whose room connect raises before the try block: the record in room 5 is
marked failed. -/
theorem C6_witness :
    (findCallByRoom (run_livekit_worker dbInitiatedCall 5 7 envConnectRaises).2 5).map
      CallRow.status = some "failed" :=
  (C6_worker_failure_containment dbInitiatedCall 5 7 envConnectRaises).2.1
    "room connect refused" (mkCallRow 9 5 "initiated") rfl rfl

/-- Claim C7, counterexample: the claim states the dial and the session
start are joined at a failure-fast join-point where either failure
cancels the other and yields a Failed report; when the dial raises, the
trace shows the session-start task is never cancelled and the coroutine
returns normally with only a shutdown, so no Failed report is produced. -/
theorem C7_counterexample :
    (entrypoint 7 envDialRaises).1 =
      [.connect, .sessionTaskCreated, .dialAwait, .shutdown] ∧
    WorkerEvent.cancelSessionTask ∉ (entrypoint 7 envDialRaises).1 ∧
    (entrypoint 7 envDialRaises).2 = .ok () :=
  ⟨rfl, by decide, rfl⟩

/-- Claim C7, amended: in every worker run that awaits the dial, the
session.start task was created strictly earlier in the trace, so the
session is initiated before the worker awaits the dial; but the join is
sequential, not failure-fast: no run ever cancels the session task, the
dial is awaited before the session task is awaited, and a failure of
either operation (the dial, or the session task at its await) produces
no Failed report, only a shutdown with a normal coroutine return. -/
theorem C7_session_before_dial :
    ∀ aid env,
      (WorkerEvent.dialAwait ∈ (entrypoint aid env).1 →
        ((entrypoint aid env).1.indexOf WorkerEvent.sessionTaskCreated <
          (entrypoint aid env).1.indexOf WorkerEvent.dialAwait ∧
         WorkerEvent.sessionTaskCreated ∈ (entrypoint aid env).1)) ∧
      WorkerEvent.cancelSessionTask ∉ (entrypoint aid env).1 ∧
      (WorkerEvent.dialAwait ∈ (entrypoint aid env).1 →
        env.dial_outcome ≠ StepOutcome.ok →
        (entrypoint aid env).2 = .ok () ∧
        WorkerEvent.shutdown ∈ (entrypoint aid env).1) ∧
      (WorkerEvent.sessionAwait ∈ (entrypoint aid env).1 →
        (entrypoint aid env).1.indexOf WorkerEvent.dialAwait <
          (entrypoint aid env).1.indexOf WorkerEvent.sessionAwait) ∧
      (WorkerEvent.sessionAwait ∈ (entrypoint aid env).1 →
        env.session_start_outcome ≠ StepOutcome.ok →
        (entrypoint aid env).2 = .ok () ∧
        WorkerEvent.shutdown ∈ (entrypoint aid env).1) := by
  intro aid env
  obtain ⟨co, af, dl, ss, wp, gr⟩ := env
  cases co <;> cases af <;> cases dl <;> cases ss <;> cases wp <;> cases gr <;>
    simp only [entrypoint] <;>
    refine ⟨?_, by decide, ?_, ?_, ?_⟩ <;>
    first
      | (intro h; exact absurd h (by decide))
      | (intro h; decide)
      | (intro h hd; exact absurd (by trivial) hd)
      | (intro h hd; exact ⟨by trivial, by decide⟩)
      | trivial

/-- Supports claim C7: the amended statement applied on the concrete run
whose dial raises a TwirpError and on the concrete run whose
session.start task raises after a successful dial. -/
theorem C7_witness :
    ((entrypoint 7 envDialFails).1.indexOf WorkerEvent.sessionTaskCreated <
      (entrypoint 7 envDialFails).1.indexOf WorkerEvent.dialAwait ∧
     WorkerEvent.sessionTaskCreated ∈ (entrypoint 7 envDialFails).1) ∧
    ((entrypoint 7 envDialFails).2 = .ok () ∧
      WorkerEvent.shutdown ∈ (entrypoint 7 envDialFails).1) ∧
    (entrypoint 7 envSessionFails).1.indexOf WorkerEvent.dialAwait <
      (entrypoint 7 envSessionFails).1.indexOf WorkerEvent.sessionAwait ∧
    ((entrypoint 7 envSessionFails).2 = .ok () ∧
      WorkerEvent.shutdown ∈ (entrypoint 7 envSessionFails).1) :=
  ⟨(C7_session_before_dial 7 envDialFails).1 (by decide),
    (C7_session_before_dial 7 envDialFails).2.2.1 (by decide) (by decide),
    (C7_session_before_dial 7 envSessionFails).2.2.2.1 (by decide),
    (C7_session_before_dial 7 envSessionFails).2.2.2.2 (by decide) (by decide)⟩

/-- Evaluation success forces the tree into the whitelisted fragment:
every node of a successfully evaluated tree is a numeric literal or an
operator whose allowed_operators subscript resolves; in particular no
identifier and no call node can occur in it. -/
theorem eval_ok_allowed : (t : PyExpr) → (v : ℚ) → eval_expr t = .ok v →
    allowedTree t = true
  | .num _, _, _ => rfl
  | .binOp op l r, v, h => by
      unfold eval_expr at h
      cases hop : binOpFunction op with
      | none =>
          simp only [hop] at h
          exact Except.noConfusion h
      | some f =>
          simp only [hop] at h
          cases hl : eval_expr l with
          | error e =>
              simp only [hl] at h
              exact Except.noConfusion h
          | ok a =>
              simp only [hl] at h
              cases hr : eval_expr r with
              | error e =>
                  simp only [hr] at h
                  exact Except.noConfusion h
              | ok b =>
                  have h1 := eval_ok_allowed l a hl
                  have h2 := eval_ok_allowed r b hr
                  simp [allowedTree, hop, h1, h2]
  | .unaryOp op e, v, h => by
      unfold eval_expr at h
      cases hop : unaryOpFunction op with
      | none =>
          simp only [hop] at h
          exact Except.noConfusion h
      | some f =>
          simp only [hop] at h
          cases he : eval_expr e with
          | error e2 =>
              simp only [he] at h
              exact Except.noConfusion h
          | ok a =>
              have h1 := eval_ok_allowed e a he
              simp [allowedTree, hop, h1]
  | .name _, _, h => by simp [eval_expr] at h
  | .call _ _, _, h => by simp [eval_expr] at h

/-- Claim C2, confirmed: the calculate built-in parses into a syntax
tree and evaluates only the whitelisted fragment: two plus three times
four evaluates to exactly fourteen (Python precedence respected); any
successful evaluation forces the whole tree into the whitelist of add,
sub, mult, div, pow, bitxor and unary negate over numeric literals; any
parsed input whose tree leaves the whitelist, in particular one holding
an identifier or a call, yields the structured Invalid expression error
and is never evaluated to a value; the import-bearing probe is rejected
with the structured error naming the unsupported Call node. -/
theorem C2_calculator_whitelist :
    calculate "2+3*4" = .ok 14 ∧
    (∀ t v, eval_expr t = .ok v → allowedTree t = true) ∧
    (∀ s t, pyParseEval s = .ok t → allowedTree t = false →
      ∃ e, calculate s = .error ("Invalid expression: " ++ e)) ∧
    calculate "__import__(os)" =
      .error "Invalid expression: Unsupported operation: Call" := by
  refine ⟨?_, fun t v h => eval_ok_allowed t v h, ?_, rfl⟩
  · have hp : pyParseEval "2+3*4" =
        .ok (.binOp .add (.num 2) (.binOp .mult (.num 3) (.num 4))) := rfl
    have he : eval_expr (.binOp .add (.num 2) (.binOp .mult (.num 3) (.num 4))) =
        .ok (((2 : Nat) : ℚ) + ((3 : Nat) : ℚ) * ((4 : Nat) : ℚ)) := rfl
    have hv : ((2 : Nat) : ℚ) + ((3 : Nat) : ℚ) * ((4 : Nat) : ℚ) = 14 := by
      push_cast
      norm_num
    unfold calculate
    simp only [hp, he, hv]
  · intro s t hp hbad
    cases he : eval_expr t with
    | ok v =>
        have := eval_ok_allowed t v he
        rw [hbad] at this
        exact absurd this (by simp)
    | error e =>
        refine ⟨e, ?_⟩
        unfold calculate
        simp only [hp, he]

/-- Supports claim C2: the whitelist characterisation applied at a
concrete whitelisted tree and the rejection applied at a concrete
identifier-bearing input. -/
theorem C2_witness :
    allowedTree (.binOp .add (.num 2) (.num 3)) = true ∧
    (∃ e, calculate "1+x" = .error ("Invalid expression: " ++ e)) :=
  ⟨C2_calculator_whitelist.2.1 (.binOp .add (.num 2) (.num 3))
      (((2 : Nat) : ℚ) + ((3 : Nat) : ℚ)) rfl,
    C2_calculator_whitelist.2.2.1 "1+x" (.binOp .add (.num 1) (.name "x"))
      rfl rfl⟩

/-- Every successful api dispatch result fits the envelope. -/
theorem execute_api_tool_wf (cfg : ToolConfiguration)
    (params : List (String × Value)) (client : HttpClient) (clock : Nat)
    (r : ToolResult) (h : execute_api_tool cfg params client clock = .ok r) :
    resultWellFormed r := by
  unfold execute_api_tool at h
  cases he : cfg.endpoint with
  | none =>
      simp only [he] at h
      exact Except.noConfusion h
  | some endpoint =>
      simp only [he] at h
      split at h
      · cases hs : client.send (pyUpper (cfg.method.getD "GET")) endpoint
            (mergeParams cfg.default_params params) with
        | transportFault m =>
            simp only [hs] at h
            exact Except.noConfusion h
        | resp r2 =>
            simp only [hs] at h
            split at h
            · injection h with h
              subst h
              exact ⟨fun _ => rfl, fun hc => Bool.noConfusion hc⟩
            · injection h with h
              subst h
              exact ⟨fun hc => Bool.noConfusion hc, fun _ => rfl⟩
      · exact Except.noConfusion h

/-- Every successful webhook dispatch result fits the envelope. -/
theorem execute_webhook_tool_wf (cfg : ToolConfiguration)
    (params : List (String × Value)) (client : HttpClient) (clock : Nat)
    (r : ToolResult) (h : execute_webhook_tool cfg params client clock = .ok r) :
    resultWellFormed r := by
  unfold execute_webhook_tool at h
  cases he : cfg.webhook_url with
  | none =>
      simp only [he] at h
      exact Except.noConfusion h
  | some webhook_url =>
      simp only [he] at h
      split at h
      · cases hs : client.send (pyUpper (cfg.method.getD "POST")) webhook_url
            (mergeParams
              [("timestamp", .vstr (utcIsoformat clock)), ("parameters", .vobj params)]
              cfg.default_payload) with
        | transportFault m =>
            simp only [hs] at h
            exact Except.noConfusion h
        | resp r2 =>
            simp only [hs] at h
            split at h
            · injection h with h
              subst h
              exact ⟨fun _ => rfl, fun hc => Bool.noConfusion hc⟩
            · injection h with h
              subst h
              exact ⟨fun hc => Bool.noConfusion hc, fun _ => rfl⟩
      · exact Except.noConfusion h

/-- Every successful function dispatch result fits the envelope. -/
theorem execute_function_tool_wf (cfg : ToolConfiguration)
    (params : List (String × Value)) (clock : Nat)
    (r : ToolResult) (h : execute_function_tool cfg params clock = .ok r) :
    resultWellFormed r := by
  unfold execute_function_tool at h
  cases hn : cfg.function_name with
  | none =>
      simp only [hn] at h
      exact Except.noConfusion h
  | some function_name =>
      simp only [hn] at h
      cases hg : FunctionRegistry.new.get_function function_name with
      | none =>
          simp only [hg] at h
          injection h with h
          subst h
          exact ⟨fun hc => Bool.noConfusion hc, fun _ => rfl⟩
      | some f =>
          simp only [hg] at h
          cases ha : applyFunction f params clock with
          | ok v =>
              simp only [ha] at h
              injection h with h
              subst h
              exact ⟨fun _ => rfl, fun hc => Bool.noConfusion hc⟩
          | error e =>
              simp only [ha] at h
              injection h with h
              subst h
              exact ⟨fun hc => Bool.noConfusion hc, fun _ => rfl⟩

/-- Claim C3, confirmed: every dispatch, whatever the tool configuration,
parameters or client behaviour, returns the structured envelope (success
with data, or failure with an error) and never an exception; an
unsupported kind is a structured failure naming the kind; an unknown
function name is a structured failure whose message says not found; a
non-2xx response is a structured failure carrying the status code; a
transport fault is a structured failure carrying the fault text. -/
theorem C3_uniform_envelope :
    (∀ tool params client clock,
      resultWellFormed (execute_tool tool params client clock)) ∧
    (∀ tool params client clock t, tool.type = some t →
      (t == "api") = false → (t == "function") = false →
      (t == "webhook") = false →
      execute_tool tool params client clock =
        { success := false, data := none,
          error := some ("Unsupported tool type: " ++ t),
          status_code := none, timestamp := clock }) ∧
    (∀ tool params client clock n, tool.type = some "function" →
      tool.configuration.function_name = some n →
      FunctionRegistry.new.get_function n = none →
      execute_tool tool params client clock =
        { success := false, data := none,
          error := some ("Function \x27" ++ n ++ "\x27 not found"),
          status_code := none, timestamp := clock }) ∧
    (∀ tool params client clock u r, tool.type = some "api" →
      tool.configuration.endpoint = some u →
      tool.configuration.method = none →
      (∀ m url d, client.send m url d = .resp r) →
      ¬(200 ≤ r.status_code ∧ r.status_code < 300) →
      execute_tool tool params client clock =
        { success := false, data := none,
          error := some ("HTTP " ++ toString r.status_code ++ ": " ++ r.body),
          status_code := some r.status_code, timestamp := clock }) ∧
    (∀ tool params client clock u m, tool.type = some "api" →
      tool.configuration.endpoint = some u →
      tool.configuration.method = none →
      (∀ mth url d, client.send mth url d = .transportFault m) →
      execute_tool tool params client clock =
        { success := false, data := none, error := some m,
          status_code := none, timestamp := clock }) := by
  refine ⟨?_, ?_, ?_, ?_, ?_⟩
  · intro tool params client clock
    unfold execute_tool
    cases ht : tool.type with
    | none => exact ⟨fun hc => Bool.noConfusion hc, fun _ => rfl⟩
    | some t =>
        by_cases h1 : (t == "api") = true
        · simp only [h1, if_true]
          cases hd : execute_api_tool tool.configuration params client clock with
          | ok r => exact execute_api_tool_wf _ _ _ _ _ hd
          | error e => exact ⟨fun hc => Bool.noConfusion hc, fun _ => rfl⟩
        · simp only [Bool.not_eq_true] at h1
          simp only [h1, Bool.false_eq_true, if_false]
          by_cases h2 : (t == "function") = true
          · simp only [h2, if_true]
            cases hd : execute_function_tool tool.configuration params clock with
            | ok r => exact execute_function_tool_wf _ _ _ _ hd
            | error e => exact ⟨fun hc => Bool.noConfusion hc, fun _ => rfl⟩
          · simp only [Bool.not_eq_true] at h2
            simp only [h2, Bool.false_eq_true, if_false]
            by_cases h3 : (t == "webhook") = true
            · simp only [h3, if_true]
              cases hd : execute_webhook_tool tool.configuration params client clock with
              | ok r => exact execute_webhook_tool_wf _ _ _ _ _ hd
              | error e => exact ⟨fun hc => Bool.noConfusion hc, fun _ => rfl⟩
            · simp only [Bool.not_eq_true] at h3
              simp only [h3, Bool.false_eq_true, if_false]
              exact ⟨fun hc => Bool.noConfusion hc, fun _ => rfl⟩
  · intro tool params client clock t ht h1 h2 h3
    unfold execute_tool
    simp only [ht, h1, h2, h3, Bool.false_eq_true, if_false]
  · intro tool params client clock n ht hn hg
    have e1 : ("function" == "api") = false := rfl
    have e2 : ("function" == "function") = true := rfl
    unfold execute_tool execute_function_tool
    simp [ht, hn, hg, e1, e2]
  · intro tool params client clock u r ht he hm hsend hst
    have e1 : ("api" == "api") = true := rfl
    unfold execute_tool execute_api_tool
    have hmeth : ((pyUpper "GET" == "GET") || (pyUpper "GET" == "POST")) = true := by
      decide
    simp only [ht, e1, if_true, he, hm, Option.getD_none, hmeth, hsend]
    rw [if_neg hst]
  · intro tool params client clock u m ht he hm hsend
    have e1 : ("api" == "api") = true := rfl
    unfold execute_tool execute_api_tool
    have hmeth : ((pyUpper "GET" == "GET") || (pyUpper "GET" == "POST")) = true := by
      decide
    simp only [ht, e1, if_true, he, hm, Option.getD_none, hmeth, hsend]

/-- Supports claim C3: the envelope statements applied at concrete
inputs: an unsupported shell kind, and a client answering HTTP 500. -/
theorem C3_witness :
    execute_tool toolShell [] nullClient 3 =
      { success := false, data := none,
        error := some ("Unsupported tool type: " ++ "shell"),
        status_code := none, timestamp := 3 } ∧
    execute_tool
      { type := some "api", name := none,
        configuration := { emptyCfg with endpoint := some "http://x" } }
      []
      { send := fun _ _ _ =>
          .resp { status_code := 500, body := "boom", content_type := "text/plain" } }
      4 =
      { success := false, data := none,
        error := some ("HTTP " ++ toString 500 ++ ": " ++ "boom"),
        status_code := some 500, timestamp := 4 } :=
  ⟨C3_uniform_envelope.2.1 toolShell [] nullClient 3 "shell" rfl rfl rfl rfl,
    C3_uniform_envelope.2.2.2.1
      { type := some "api", name := none,
        configuration := { emptyCfg with endpoint := some "http://x" } }
      [] _ 4 "http://x"
      { status_code := 500, body := "boom", content_type := "text/plain" }
      rfl rfl rfl (fun _ _ _ => rfl) (by decide)⟩

/-- The freshly constructed registry resolves exactly the three
built-in names. -/
theorem get_function_new_eq (n : String) :
    FunctionRegistry.new.get_function n =
      if n = "get_current_time" then some RegisteredFunction.get_current_time
      else if n = "calculate" then some RegisteredFunction.calculateFn
      else if n = "format_currency" then some RegisteredFunction.format_currency
      else none := by
  have hnew : FunctionRegistry.new.functions =
      [("get_current_time", RegisteredFunction.get_current_time),
       ("calculate", RegisteredFunction.calculateFn),
       ("format_currency", RegisteredFunction.format_currency)] := rfl
  simp only [FunctionRegistry.get_function, hnew]
  by_cases h1 : n = "get_current_time"
  · subst h1
    simp
  · by_cases h2 : n = "calculate"
    · subst h2
      simp
    · by_cases h3 : n = "format_currency"
      · subst h3
        simp
      · have b1 : ("get_current_time" == n) = false := by
          simp [beq_iff_eq]
          exact fun hc => h1 hc.symm
        have b2 : ("calculate" == n) = false := by
          simp [beq_iff_eq]
          exact fun hc => h2 hc.symm
        have b3 : ("format_currency" == n) = false := by
          simp [beq_iff_eq]
          exact fun hc => h3 hc.symm
        simp [List.find?, b1, b2, b3, h1, h2, h3]

/-- Python dict assignment followed by lookup at the same key returns the
assigned callable. -/
theorem insertKey_find? :
    ∀ (l : List (String × RegisteredFunction)) (n : String)
      (f : RegisteredFunction),
      List.find? (fun kv => kv.1 == n) (insertKey l n f) = some (n, f) := by
  intro l
  induction l with
  | nil =>
      intro n f
      simp [insertKey, List.find?]
  | cons kv rest ih =>
      intro n f
      by_cases hk : (kv.1 == n) = true
      · simp [insertKey, hk, List.find?]
      · have hk2 : (kv.1 == n) = false := by
          cases hb : (kv.1 == n)
          · rfl
          · exact absurd hb hk
        simp only [insertKey, hk2, Bool.false_eq_true, if_false]
        rw [List.find?_cons_of_neg _ (by simp [hk2])]
        exact ih n f

/-- Claim C9, confirmed: function dispatch resolves names against a
freshly constructed registry holding exactly the three built-ins, so
only get_current_time, calculate and format_currency can ever resolve;
every other name is answered with the structured not-found failure even
though registering it on some other registry instance succeeds there. -/
theorem C9_fresh_registry_builtins :
    (∀ n, (FunctionRegistry.new.get_function n).isSome = true ↔
      (n = "get_current_time" ∨ n = "calculate" ∨ n = "format_currency")) ∧
    (∀ cfg params clock n, cfg.function_name = some n →
      n ≠ "get_current_time" → n ≠ "calculate" → n ≠ "format_currency" →
      execute_function_tool cfg params clock =
        .ok { success := false, data := none,
              error := some ("Function \x27" ++ n ++ "\x27 not found"),
              status_code := none, timestamp := clock }) ∧
    (∀ reg n f, (FunctionRegistry.register_function reg n f).get_function n =
      some f) := by
  refine ⟨?_, ?_, ?_⟩
  · intro n
    rw [get_function_new_eq]
    by_cases h1 : n = "get_current_time"
    · simp [h1]
    · by_cases h2 : n = "calculate"
      · simp [h1, h2]
      · by_cases h3 : n = "format_currency"
        · simp [h1, h2, h3]
        · simp [h1, h2, h3]
  · intro cfg params clock n hn h1 h2 h3
    have hg : FunctionRegistry.new.get_function n = none := by
      rw [get_function_new_eq]
      rw [if_neg h1, if_neg h2, if_neg h3]
    unfold execute_function_tool
    simp only [hn, hg]
  · intro reg n f
    unfold FunctionRegistry.get_function FunctionRegistry.register_function
    rw [insertKey_find?]
    rfl

/-- Supports claim C9: the not-found answer applied at a concrete
unknown name, and a runtime registration on a separate instance that is
visible only on that instance. -/
theorem C9_witness :
    execute_function_tool cfgUnknownFn [] 0 =
      .ok { success := false, data := none,
            error := some ("Function \x27" ++ "does_not_exist" ++ "\x27 not found"),
            status_code := none, timestamp := 0 } ∧
    (FunctionRegistry.new.register_function "does_not_exist"
        (.custom (fun _ => .ok .vnull))).get_function "does_not_exist" =
      some (.custom (fun _ => .ok .vnull)) :=
  ⟨C9_fresh_registry_builtins.2.1 cfgUnknownFn [] 0 "does_not_exist" rfl
      (by decide) (by decide) (by decide),
    C9_fresh_registry_builtins.2.2 FunctionRegistry.new "does_not_exist"
      (.custom (fun _ => .ok .vnull))⟩

end AiCallAgent
